import Mathlib

/-!
Verification of the FIPS BoringCrypto binding layer of this repository.

The development shallowly embeds the Go sources:
  * `src/crypto/internal/boring/rsa.go` and the big-number marshalling
    helpers of `boring.go` (second document in the same file),
  * the NIST test-vector loop of the ECDSA test file,
  * `misc/boring/build.release`.

Foreign (C / BoringCrypto) calls are modelled by an oracle structure that
fixes the result of each call, and every embedded function additionally
returns the list of foreign calls it performed, in order, so that claims
about which foreign routines are invoked and with which arguments become
statements about that trace.
-/

namespace GoFips

/-- Byte strings crossing the foreign-function boundary (Go `[]byte`).
Each entry is one byte value. -/
abbrev Bytes := List Nat

/-! ### Big-number marshalling (`boring.go`: `bigToBN`, `bnToBig`)

A foreign `GO_BIGNUM` is modelled by its minimal big-endian byte
representation, which is exactly what `BN_bin2bn` receives from
`x.Bytes()` and what `BN_num_bytes`/`BN_bn2bin` hand back. -/

/-- Minimal big-endian byte representation of a natural number; the empty
list for `0`.  This is the value of Go `(*big.Int).Bytes()` for a
non-negative integer. -/
def natToBytes : Nat → Bytes
  | 0 => []
  | n + 1 => natToBytes ((n + 1) / 256) ++ [(n + 1) % 256]
  decreasing_by exact Nat.div_lt_self (Nat.succ_pos n) (by norm_num)

/-- Big-endian interpretation of a byte string, as performed by Go
`new(big.Int).SetBytes`. -/
def bytesToNat (bs : Bytes) : Nat :=
  bs.foldl (fun acc b => acc * 256 + b) 0

/-- `bigToBN` (boring.go): marshal a Go `*big.Int` into a foreign
`GO_BIGNUM` via `x.Bytes()` and `BN_bin2bn`.  The foreign object is its
minimal big-endian byte string; `x.Bytes()` encodes the absolute value. -/
def bigToBN (x : Int) : Bytes :=
  natToBytes x.natAbs

/-- `bnToBig` (boring.go): read a foreign `GO_BIGNUM` back into a Go
`*big.Int` via `BN_num_bytes`/`BN_bn2bin` and `SetBytes`. -/
def bnToBig (bn : Bytes) : Int :=
  (bytesToNat bn : Int)

/-! ### C-level machine integers -/

/-- Conversion to a C `int` (32-bit two's complement), as performed by the
cgo cast `C.int(...)`. -/
def cint (n : Int) : Int :=
  (n + 2 ^ 31) % 2 ^ 32 - 2 ^ 31

/-! ### Foreign-call events and padding flags

The padding flags are the `GO_RSA_*` constants of `goboringcrypto.h`;
only their distinctness matters to the wrapper, so they are modelled as an
enumeration. -/

inductive Padding where
  | GO_RSA_PKCS1_PADDING
  | GO_RSA_NO_PADDING
  | GO_RSA_PKCS1_OAEP_PADDING
  | GO_RSA_PKCS1_PSS_PADDING
  deriving DecidableEq, Repr

/-- One foreign (C / BoringCrypto) call performed by the wrapper, with the
arguments that flow into it from Go.  Allocation calls record whether the
allocation succeeded (returned non-nil). -/
inductive CCall where
  | evpPkeyNew (ok : Bool)
  | evpPkeySet1RSA
  | evpPkeyCtxNew (ok : Bool)
  | opInit
  | setRsaPadding (p : Padding)
  | setRsaOaepMd (md : Nat)
  | mallocLabel (n : Nat)
  | set0RsaOaepLabel (label : Bytes)
  | setRsaPssSaltlen (s : Int)
  | setRsaMgf1Md (md : Nat)
  | evpPkeyFree
  | evpPkeyCtxFree
  | cryptOp (inB : Bytes)
  | rsaSizeQ
  | rsaSignPssMgf1 (md : Nat) (hashed : Bytes) (saltLen : Int)
  | rsaVerifyPssMgf1 (md : Nat) (hashed : Bytes) (saltLen : Int) (sig : Bytes)
  | rsaSignRaw (nid : Int) (msg : Bytes)
  | evpRsaSign (md : Nat) (msg : Bytes)
  | rsaVerifyRaw (nid : Int) (msg : Bytes) (sig : Bytes)
  | evpRsaVerify (md : Nat) (msg : Bytes) (sig : Bytes)
  | rsaNew (ok : Bool)
  | rsaGenerateKeyFips (bits : Int)
  | rsaGetComponents
  | rsaFree
  deriving DecidableEq, Repr

/-- Foreign signing / verification routines (as opposed to setup, size
queries, allocation and free calls). -/
def isSignVerifyCall : CCall → Bool
  | .rsaSignPssMgf1 _ _ _ => true
  | .rsaVerifyPssMgf1 _ _ _ _ => true
  | .rsaSignRaw _ _ => true
  | .evpRsaSign _ _ => true
  | .rsaVerifyRaw _ _ _ => true
  | .evpRsaVerify _ _ _ => true
  | _ => false

/-- Successful allocation of an `EVP_PKEY`. -/
def isPkeyAlloc : CCall → Bool
  | .evpPkeyNew true => true
  | _ => false

/-- Free of an `EVP_PKEY`. -/
def isPkeyFree : CCall → Bool
  | .evpPkeyFree => true
  | _ => false

/-- Successful allocation of an `EVP_PKEY_CTX`. -/
def isCtxAlloc : CCall → Bool
  | .evpPkeyCtxNew true => true
  | _ => false

/-- Free of an `EVP_PKEY_CTX`. -/
def isCtxFree : CCall → Bool
  | .evpPkeyCtxFree => true
  | _ => false

/-- The signature-byte arguments handed to foreign verification calls. -/
def sigArgs : List CCall → List Bytes
  | [] => []
  | .rsaVerifyPssMgf1 _ _ _ s :: r => s :: sigArgs r
  | .rsaVerifyRaw _ _ s :: r => s :: sigArgs r
  | .evpRsaVerify _ _ s :: r => s :: sigArgs r
  | _ :: r => sigArgs r

/-- The message / hashed-message / input-byte arguments handed to foreign
sign, verify, encrypt and decrypt calls. -/
def msgArgs : List CCall → List Bytes
  | [] => []
  | .cryptOp m :: r => m :: msgArgs r
  | .rsaSignPssMgf1 _ m _ :: r => m :: msgArgs r
  | .rsaVerifyPssMgf1 _ m _ _ :: r => m :: msgArgs r
  | .rsaSignRaw _ m :: r => m :: msgArgs r
  | .evpRsaSign _ m :: r => m :: msgArgs r
  | .rsaVerifyRaw _ m _ :: r => m :: msgArgs r
  | .evpRsaVerify _ m _ :: r => m :: msgArgs r
  | _ :: r => msgArgs r

/-- The salt-length arguments handed to the foreign PSS sign/verify
routines. -/
def pssSaltArgs : List CCall → List Int
  | [] => []
  | .rsaSignPssMgf1 _ _ s :: r => s :: pssSaltArgs r
  | .rsaVerifyPssMgf1 _ _ s _ :: r => s :: pssSaltArgs r
  | _ :: r => pssSaltArgs r

/-- The padding flags handed to `EVP_PKEY_CTX_set_rsa_padding`. -/
def paddingArgs : List CCall → List Padding
  | [] => []
  | .setRsaPadding p :: r => p :: paddingArgs r
  | _ :: r => paddingArgs r

/-- OAEP-specific context setup: the OAEP digest and the label copy
(`EVP_PKEY_CTX_set_rsa_oaep_md`, the label `malloc` and
`EVP_PKEY_CTX_set0_rsa_oaep_label`). -/
def isOaepSetupCall : CCall → Bool
  | .setRsaOaepMd _ => true
  | .mallocLabel _ => true
  | .set0RsaOaepLabel _ => true
  | _ => false

/-! ### `setupRSA` (rsa.go lines 115-182) -/

/-- Results of the foreign calls that `setupRSA` can make.  `hashToMD`
is the message digest for the `hash.Hash` argument `h` (the result of
`hashToMD h`), `cryptoHashToMD` the digest map applied to the
`crypto.Hash` argument. -/
structure SetupOracle where
  evpPkeyNewOk : Bool
  set1RsaOk : Bool
  ctxNewOk : Bool
  initOk : Bool
  setPaddingOk : Bool
  hashToMD : Option Nat
  setOaepMdOk : Bool
  mallocOk : Bool
  setLabelOk : Bool
  setSaltlenOk : Bool
  cryptoHashToMD : Nat → Option Nat
  setMgf1Ok : Bool

/-- Return value of `setupRSA`: the two foreign handles (modelled only by
presence, `some ()` = non-nil) and the error. -/
structure SetupResult where
  pkey : Option Unit
  ctx : Option Unit
  err : Option String
  deriving DecidableEq, Repr

/-- `setupRSA` (rsa.go): build an `EVP_PKEY` and an `EVP_PKEY_CTX` for
`key`, configure the padding flag, and perform the OAEP- or PSS-specific
context setup.  The deferred cleanup of the Go source frees whichever of
the two handles were allocated whenever an error is returned and returns
nil for both. -/
def setupRSA (o : SetupOracle) (padding : Padding) (label : Bytes)
    (saltLen : Int) (ch : Nat) : SetupResult × List CCall :=
  if o.evpPkeyNewOk = false then
    (⟨none, none, some "EVP_PKEY_new failed"⟩, [.evpPkeyNew false])
  else if o.set1RsaOk = false then
    (⟨none, none, some "EVP_PKEY_set1_RSA failed"⟩,
      [.evpPkeyNew true, .evpPkeySet1RSA, .evpPkeyFree])
  else if o.ctxNewOk = false then
    (⟨none, none, some "EVP_PKEY_CTX_new failed"⟩,
      [.evpPkeyNew true, .evpPkeySet1RSA, .evpPkeyCtxNew false, .evpPkeyFree])
  else
    let pre : List CCall := [.evpPkeyNew true, .evpPkeySet1RSA, .evpPkeyCtxNew true]
    let fin : List CCall := [.evpPkeyFree, .evpPkeyCtxFree]
    if o.initOk = false then
      (⟨none, none, some "EVP_PKEY_operation_init failed"⟩,
        pre ++ [.opInit] ++ fin)
    else if o.setPaddingOk = false then
      (⟨none, none, some "EVP_PKEY_CTX_set_rsa_padding failed"⟩,
        pre ++ [.opInit, .setRsaPadding padding] ++ fin)
    else
      let pre := pre ++ [.opInit, .setRsaPadding padding]
      if padding = .GO_RSA_PKCS1_OAEP_PADDING then
        match o.hashToMD with
        | none =>
          (⟨none, none, some "crypto/rsa: unsupported hash function"⟩, pre ++ fin)
        | some md =>
          if o.setOaepMdOk = false then
            (⟨none, none, some "EVP_PKEY_set_rsa_oaep_md failed"⟩,
              pre ++ [.setRsaOaepMd md] ++ fin)
          else if o.mallocOk = false then
            (⟨none, none, some "malloc failed"⟩,
              pre ++ [.setRsaOaepMd md, .mallocLabel label.length] ++ fin)
          else if o.setLabelOk = false then
            (⟨none, none, some "EVP_PKEY_CTX_set0_rsa_oaep_label failed"⟩,
              pre ++ [.setRsaOaepMd md, .mallocLabel label.length,
                .set0RsaOaepLabel label] ++ fin)
          else
            (⟨some (), some (), none⟩,
              pre ++ [.setRsaOaepMd md, .mallocLabel label.length,
                .set0RsaOaepLabel label])
      else if padding = .GO_RSA_PKCS1_PSS_PADDING then
        if saltLen ≠ 0 ∧ o.setSaltlenOk = false then
          (⟨none, none, some "EVP_PKEY_set_rsa_pss_saltlen failed"⟩,
            pre ++ [.setRsaPssSaltlen (cint saltLen)] ++ fin)
        else
          let pre := if saltLen ≠ 0 then pre ++ [.setRsaPssSaltlen (cint saltLen)] else pre
          match o.cryptoHashToMD ch with
          | none =>
            (⟨none, none, some "crypto/rsa: unsupported hash function"⟩, pre ++ fin)
          | some md =>
            if o.setMgf1Ok = false then
              (⟨none, none, some "EVP_PKEY_set_rsa_mgf1_md failed"⟩,
                pre ++ [.setRsaMgf1Md md] ++ fin)
            else
              (⟨some (), some (), none⟩, pre ++ [.setRsaMgf1Md md])
      else
        (⟨some (), some (), none⟩, pre)

inductive SetupOut (o : SetupOracle) (padding : Padding) (label : Bytes)
    (saltLen : Int) (ch : Nat) : SetupResult × List CCall → Prop where
  | pkeyNewFail :
      SetupOut o padding label saltLen ch
        (⟨none, none, some "EVP_PKEY_new failed"⟩, [.evpPkeyNew false])
  | set1Fail :
      SetupOut o padding label saltLen ch
        (⟨none, none, some "EVP_PKEY_set1_RSA failed"⟩,
          [.evpPkeyNew true, .evpPkeySet1RSA, .evpPkeyFree])
  | ctxNewFail :
      SetupOut o padding label saltLen ch
        (⟨none, none, some "EVP_PKEY_CTX_new failed"⟩,
          [.evpPkeyNew true, .evpPkeySet1RSA, .evpPkeyCtxNew false,
            .evpPkeyFree])
  | initFail :
      SetupOut o padding label saltLen ch
        (⟨none, none, some "EVP_PKEY_operation_init failed"⟩,
          [.evpPkeyNew true, .evpPkeySet1RSA, .evpPkeyCtxNew true, .opInit,
            .evpPkeyFree, .evpPkeyCtxFree])
  | setPaddingFail :
      SetupOut o padding label saltLen ch
        (⟨none, none, some "EVP_PKEY_CTX_set_rsa_padding failed"⟩,
          [.evpPkeyNew true, .evpPkeySet1RSA, .evpPkeyCtxNew true, .opInit,
            .setRsaPadding padding, .evpPkeyFree, .evpPkeyCtxFree])
  | oaepNoMD :
      padding = .GO_RSA_PKCS1_OAEP_PADDING →
      SetupOut o padding label saltLen ch
        (⟨none, none, some "crypto/rsa: unsupported hash function"⟩,
          [.evpPkeyNew true, .evpPkeySet1RSA, .evpPkeyCtxNew true, .opInit,
            .setRsaPadding padding, .evpPkeyFree, .evpPkeyCtxFree])
  | oaepMdFail (md : Nat) :
      padding = .GO_RSA_PKCS1_OAEP_PADDING →
      SetupOut o padding label saltLen ch
        (⟨none, none, some "EVP_PKEY_set_rsa_oaep_md failed"⟩,
          [.evpPkeyNew true, .evpPkeySet1RSA, .evpPkeyCtxNew true, .opInit,
            .setRsaPadding padding, .setRsaOaepMd md, .evpPkeyFree,
            .evpPkeyCtxFree])
  | oaepMallocFail (md : Nat) :
      padding = .GO_RSA_PKCS1_OAEP_PADDING →
      SetupOut o padding label saltLen ch
        (⟨none, none, some "malloc failed"⟩,
          [.evpPkeyNew true, .evpPkeySet1RSA, .evpPkeyCtxNew true, .opInit,
            .setRsaPadding padding, .setRsaOaepMd md,
            .mallocLabel label.length, .evpPkeyFree, .evpPkeyCtxFree])
  | oaepLabelFail (md : Nat) :
      padding = .GO_RSA_PKCS1_OAEP_PADDING →
      SetupOut o padding label saltLen ch
        (⟨none, none, some "EVP_PKEY_CTX_set0_rsa_oaep_label failed"⟩,
          [.evpPkeyNew true, .evpPkeySet1RSA, .evpPkeyCtxNew true, .opInit,
            .setRsaPadding padding, .setRsaOaepMd md,
            .mallocLabel label.length, .set0RsaOaepLabel label, .evpPkeyFree,
            .evpPkeyCtxFree])
  | oaepOk (md : Nat) :
      padding = .GO_RSA_PKCS1_OAEP_PADDING →
      SetupOut o padding label saltLen ch
        (⟨some (), some (), none⟩,
          [.evpPkeyNew true, .evpPkeySet1RSA, .evpPkeyCtxNew true, .opInit,
            .setRsaPadding padding, .setRsaOaepMd md,
            .mallocLabel label.length, .set0RsaOaepLabel label])
  | pssSaltFail :
      padding = .GO_RSA_PKCS1_PSS_PADDING →
      SetupOut o padding label saltLen ch
        (⟨none, none, some "EVP_PKEY_set_rsa_pss_saltlen failed"⟩,
          [.evpPkeyNew true, .evpPkeySet1RSA, .evpPkeyCtxNew true, .opInit,
            .setRsaPadding padding, .setRsaPssSaltlen (cint saltLen),
            .evpPkeyFree, .evpPkeyCtxFree])
  | pssNoMD0 :
      padding = .GO_RSA_PKCS1_PSS_PADDING →
      SetupOut o padding label saltLen ch
        (⟨none, none, some "crypto/rsa: unsupported hash function"⟩,
          [.evpPkeyNew true, .evpPkeySet1RSA, .evpPkeyCtxNew true, .opInit,
            .setRsaPadding padding, .evpPkeyFree, .evpPkeyCtxFree])
  | pssNoMD1 :
      padding = .GO_RSA_PKCS1_PSS_PADDING →
      SetupOut o padding label saltLen ch
        (⟨none, none, some "crypto/rsa: unsupported hash function"⟩,
          [.evpPkeyNew true, .evpPkeySet1RSA, .evpPkeyCtxNew true, .opInit,
            .setRsaPadding padding, .setRsaPssSaltlen (cint saltLen),
            .evpPkeyFree, .evpPkeyCtxFree])
  | pssMgf1Fail0 (cmd : Nat) :
      padding = .GO_RSA_PKCS1_PSS_PADDING →
      SetupOut o padding label saltLen ch
        (⟨none, none, some "EVP_PKEY_set_rsa_mgf1_md failed"⟩,
          [.evpPkeyNew true, .evpPkeySet1RSA, .evpPkeyCtxNew true, .opInit,
            .setRsaPadding padding, .setRsaMgf1Md cmd, .evpPkeyFree,
            .evpPkeyCtxFree])
  | pssMgf1Fail1 (cmd : Nat) :
      padding = .GO_RSA_PKCS1_PSS_PADDING →
      SetupOut o padding label saltLen ch
        (⟨none, none, some "EVP_PKEY_set_rsa_mgf1_md failed"⟩,
          [.evpPkeyNew true, .evpPkeySet1RSA, .evpPkeyCtxNew true, .opInit,
            .setRsaPadding padding, .setRsaPssSaltlen (cint saltLen),
            .setRsaMgf1Md cmd, .evpPkeyFree, .evpPkeyCtxFree])
  | pssOk0 (cmd : Nat) :
      padding = .GO_RSA_PKCS1_PSS_PADDING →
      SetupOut o padding label saltLen ch
        (⟨some (), some (), none⟩,
          [.evpPkeyNew true, .evpPkeySet1RSA, .evpPkeyCtxNew true, .opInit,
            .setRsaPadding padding, .setRsaMgf1Md cmd])
  | pssOk1 (cmd : Nat) :
      padding = .GO_RSA_PKCS1_PSS_PADDING →
      SetupOut o padding label saltLen ch
        (⟨some (), some (), none⟩,
          [.evpPkeyNew true, .evpPkeySet1RSA, .evpPkeyCtxNew true, .opInit,
            .setRsaPadding padding, .setRsaPssSaltlen (cint saltLen),
            .setRsaMgf1Md cmd])
  | plainOk :
      padding ≠ .GO_RSA_PKCS1_OAEP_PADDING →
      padding ≠ .GO_RSA_PKCS1_PSS_PADDING →
      SetupOut o padding label saltLen ch
        (⟨some (), some (), none⟩,
          [.evpPkeyNew true, .evpPkeySet1RSA, .evpPkeyCtxNew true, .opInit,
            .setRsaPadding padding])

/-! ### `cryptRSA` and the exported encrypt / decrypt operations
(rsa.go lines 184-231) -/

/-- Oracle for `cryptRSA`: the `setupRSA` oracle plus the two
`EVP_PKEY_encrypt`/`EVP_PKEY_decrypt` calls.  `crypt1` is the size query
(out = nil): `none` means it returned 0, `some n` that it reported an
output length `n`.  `crypt2` is the real call on the input bytes: `none`
means a result `<= 0`, `some bs` that it produced the bytes `bs`. -/
structure CryptOracle where
  setup : SetupOracle
  crypt1 : Option Nat
  crypt2 : Bytes → Option Bytes

/-- `cryptRSA` (rsa.go): set up the foreign context, query the output
size, run the foreign encrypt/decrypt on the input bytes, and free the
handles (the two deferred frees, ctx before pkey). -/
def cryptRSA (co : CryptOracle) (padding : Padding) (label : Bytes)
    (saltLen : Int) (ch : Nat) (inB : Bytes) :
    (Option Bytes × Option String) × List CCall :=
  let s := setupRSA co.setup padding label saltLen ch
  match s.1.err with
  | some e => ((none, some e), s.2)
  | none =>
    match co.crypt1 with
    | none =>
      ((none, some "EVP_PKEY_decrypt/encrypt failed"),
        s.2 ++ [.cryptOp inB, .evpPkeyCtxFree, .evpPkeyFree])
    | some n1 =>
      match co.crypt2 inB with
      | none =>
        ((none, some "EVP_PKEY_decrypt/encrypt failed"),
          s.2 ++ [.cryptOp inB, .cryptOp inB, .evpPkeyCtxFree, .evpPkeyFree])
      | some bs =>
        ((some (bs.take n1), none),
          s.2 ++ [.cryptOp inB, .cryptOp inB, .evpPkeyCtxFree, .evpPkeyFree])

/-- `DecryptRSAOAEP` (rsa.go line 209). -/
def DecryptRSAOAEP (co : CryptOracle) (ciphertext label : Bytes) :
    (Option Bytes × Option String) × List CCall :=
  cryptRSA co .GO_RSA_PKCS1_OAEP_PADDING label 0 0 ciphertext

/-- `EncryptRSAOAEP` (rsa.go line 213). -/
def EncryptRSAOAEP (co : CryptOracle) (msg label : Bytes) :
    (Option Bytes × Option String) × List CCall :=
  cryptRSA co .GO_RSA_PKCS1_OAEP_PADDING label 0 0 msg

/-- `DecryptRSAPKCS1` (rsa.go line 217). -/
def DecryptRSAPKCS1 (co : CryptOracle) (ciphertext : Bytes) :
    (Option Bytes × Option String) × List CCall :=
  cryptRSA co .GO_RSA_PKCS1_PADDING [] 0 0 ciphertext

/-- `EncryptRSAPKCS1` (rsa.go line 221). -/
def EncryptRSAPKCS1 (co : CryptOracle) (msg : Bytes) :
    (Option Bytes × Option String) × List CCall :=
  cryptRSA co .GO_RSA_PKCS1_PADDING [] 0 0 msg

/-- `DecryptRSANoPadding` (rsa.go line 225). -/
def DecryptRSANoPadding (co : CryptOracle) (ciphertext : Bytes) :
    (Option Bytes × Option String) × List CCall :=
  cryptRSA co .GO_RSA_NO_PADDING [] 0 0 ciphertext

/-- `EncryptRSANoPadding` (rsa.go line 229). -/
def EncryptRSANoPadding (co : CryptOracle) (msg : Bytes) :
    (Option Bytes × Option String) × List CCall :=
  cryptRSA co .GO_RSA_NO_PADDING [] 0 0 msg

/-! ### Sign / verify operations (rsa.go lines 251-347) -/

/-- Oracle for the sign/verify family.  The foreign routines are
functions of the (modelled) arguments they receive; `none` models a zero
return.  `strictFIPS` is the package flag consulted by
`PanicIfStrictFIPS`, whose definition lies outside this fragment and is
modelled as panicking exactly when the flag is set, per the `strictFIPS`
documentation in boring.go. -/
structure SignOracle where
  cryptoHashToMD : Nat → Option Nat
  rsaSize : Nat
  mdType : Nat → Int
  signPssFn : Nat → Bytes → Int → Option Bytes
  verifyPssFn : Nat → Bytes → Int → Bytes → Bool
  rsaSignFn : Int → Bytes → Option Bytes
  evpRsaSignFn : Nat → Bytes → Option Bytes
  rsaVerifyFn : Int → Bytes → Bytes → Bool
  evpRsaVerifyFn : Nat → Bytes → Bytes → Bool
  strictFIPS : Bool

/-- Outcome of a signing operation: a signature, an error (with a nil
signature), or a Go panic. -/
inductive SigResult where
  | ok (sig : Bytes)
  | err (e : String)
  | panicked (m : String)
  deriving DecidableEq, Repr

/-- Outcome of a verification: success (nil error), an error, or a Go
panic. -/
inductive VerifyResult where
  | ok
  | err (e : String)
  | panicked (m : String)
  deriving DecidableEq, Repr

/-- `SignRSAPSS` (rsa.go lines 251-271). -/
def SignRSAPSS (o : SignOracle) (h : Nat) (hashed : Bytes) (saltLen : Int) :
    SigResult × List CCall :=
  match o.cryptoHashToMD h with
  | none => (.err "crypto/rsa: unsupported hash function", [])
  | some md =>
    let saltLen := if saltLen = 0 then -1 else saltLen
    match o.signPssFn md hashed (cint saltLen) with
    | none =>
      (.err "RSA_sign_pss_mgf1 failed",
        [.rsaSizeQ, .rsaSignPssMgf1 md hashed (cint saltLen)])
    | some out =>
      (.ok (out.take o.rsaSize),
        [.rsaSizeQ, .rsaSignPssMgf1 md hashed (cint saltLen)])

/-- `VerifyRSAPSS` (rsa.go lines 273-289). -/
def VerifyRSAPSS (o : SignOracle) (h : Nat) (hashed sig : Bytes)
    (saltLen : Int) : VerifyResult × List CCall :=
  match o.cryptoHashToMD h with
  | none => (.err "crypto/rsa: unsupported hash function", [])
  | some md =>
    let saltLen := if saltLen = 0 then -2 else saltLen
    if o.verifyPssFn md hashed (cint saltLen) sig then
      (.ok, [.rsaVerifyPssMgf1 md hashed (cint saltLen) sig])
    else
      (.err "RSA_verify_pss_mgf1 failed",
        [.rsaVerifyPssMgf1 md hashed (cint saltLen) sig])

/-- `SignRSAPKCS1v15` (rsa.go lines 291-316). -/
def SignRSAPKCS1v15 (o : SignOracle) (h : Nat) (msg : Bytes)
    (msgIsHashed : Bool) : SigResult × List CCall :=
  match o.cryptoHashToMD h with
  | none =>
    (.err ("crypto/rsa: unsupported hash function: " ++ toString h),
      [.rsaSizeQ])
  | some md =>
    if msgIsHashed then
      if o.strictFIPS then
        (.panicked "You must provide a raw unhashed message for PKCS1v15 signing and use HashSignPKCS1v15 instead of SignPKCS1v15",
          [.rsaSizeQ])
      else
        let nid := o.mdType md
        match o.rsaSignFn nid msg with
        | none => (.err "RSA_sign failed", [.rsaSizeQ, .rsaSignRaw nid msg])
        | some out =>
          (.ok (out.take o.rsaSize), [.rsaSizeQ, .rsaSignRaw nid msg])
    else
      match o.evpRsaSignFn md msg with
      | none => (.err "RSA_sign failed", [.rsaSizeQ, .evpRsaSign md msg])
      | some out =>
        (.ok (out.take o.rsaSize), [.rsaSizeQ, .evpRsaSign md msg])

/-- `VerifyRSAPKCS1v15` (rsa.go lines 318-347): a signature shorter than
the RSA key size is left-padded with zero bytes before being handed to
the foreign library. -/
def VerifyRSAPKCS1v15 (o : SignOracle) (h : Nat) (msg sig : Bytes)
    (msgIsHashed : Bool) : VerifyResult × List CCall :=
  let size := o.rsaSize
  let sig := if sig.length < size then
    List.replicate (size - sig.length) 0 ++ sig else sig
  match o.cryptoHashToMD h with
  | none => (.err "crypto/rsa: unsupported hash function", [.rsaSizeQ])
  | some md =>
    if msgIsHashed then
      if o.strictFIPS then
        (.panicked "You must provide a raw unhashed message for PKCS1v15 verification and use HashVerifyPKCS1v15 instead of VerifyPKCS1v15",
          [.rsaSizeQ])
      else
        let nid := o.mdType md
        if o.rsaVerifyFn nid msg sig then
          (.ok, [.rsaSizeQ, .rsaVerifyRaw nid msg sig])
        else
          (.err "RSA_verify failed", [.rsaSizeQ, .rsaVerifyRaw nid msg sig])
    else
      if o.evpRsaVerifyFn md msg sig then
        (.ok, [.rsaSizeQ, .evpRsaVerify md msg sig])
      else
        (.err "RSA_verify failed", [.rsaSizeQ, .evpRsaVerify md msg sig])

/-! ### `GenerateKeyRSA` (rsa.go lines 25-45) -/

/-- Oracle for `GenerateKeyRSA`: success of `RSA_new` and of
`RSA_generate_key_fips`, and the eight big-number components of the
freshly generated key (as foreign `GO_BIGNUM` byte strings). -/
structure GenOracle where
  rsaNewOk : Bool
  genOk : Bool
  nBN : Bytes
  eBN : Bytes
  dBN : Bytes
  pBN : Bytes
  qBN : Bytes
  dpBN : Bytes
  dqBN : Bytes
  qinvBN : Bytes
  deriving DecidableEq, Repr

/-- The eight key components and the error returned by
`GenerateKeyRSA`; a `none` component models a nil `*big.Int`. -/
structure GenResult where
  N : Option Int
  E : Option Int
  D : Option Int
  P : Option Int
  Q : Option Int
  Dp : Option Int
  Dq : Option Int
  Qinv : Option Int
  err : Option String
  deriving DecidableEq, Repr

/-- `GenerateKeyRSA` (rsa.go): allocate a fresh key, generate it with
`RSA_generate_key_fips`, read out the eight components with `bnToBig`,
and free the key (deferred `RSA_free`).  Both failure paths return all
eight components nil via `bad`. -/
def GenerateKeyRSA (o : GenOracle) (bits : Int) : GenResult × List CCall :=
  if o.rsaNewOk = false then
    (⟨none, none, none, none, none, none, none, none, some "RSA_new failed"⟩,
      [.rsaNew false])
  else if o.genOk = false then
    (⟨none, none, none, none, none, none, none, none,
        some "RSA_generate_key_fips failed"⟩,
      [.rsaNew true, .rsaGenerateKeyFips (cint bits), .rsaFree])
  else
    (⟨some (bnToBig o.nBN), some (bnToBig o.eBN), some (bnToBig o.dBN),
        some (bnToBig o.pBN), some (bnToBig o.qBN), some (bnToBig o.dpBN),
        some (bnToBig o.dqBN), some (bnToBig o.qinvBN), none⟩,
      [.rsaNew true, .rsaGenerateKeyFips (cint bits), .rsaGetComponents,
        .rsaFree])

/-! ### NIST test-vector harness (`TestVectors`, ecdsa test file)

The body of the line loop is embedded as a step function over the mutable
state of the loop.  Strings are lists of characters; standard-library
calls that are not part of this repository (`hex.DecodeString`, the
`big.Int` hex parser `SetString`, the hash computation, and the ECDSA
`Verify`/`HashVerify` under test) are oracle functions. -/

inductive CurveId where
  | P224
  | P256
  | P384
  | P521
  deriving DecidableEq, Repr

inductive HashId where
  | SHA1
  | SHA224
  | SHA256
  | SHA384
  | SHA512
  deriving DecidableEq, Repr

/-- The loop variables of `TestVectors` that a data line can read or
write: the current curve and hash of the section header, the decoded
message, the public key coordinates and the signature halves (nil Go
pointers are `none`). -/
structure VecState where
  curve : Option CurveId
  hashAlg : Option HashId
  msg : Bytes
  qx : Option Int
  qy : Option Int
  r : Option Int
  s : Option Int
  deriving DecidableEq, Repr

/-- What one loop iteration does with a line: carry on with an updated
state, abort the test run (`t.Fatalf`), or panic. -/
inductive VecStep where
  | next (st : VecState)
  | fatal (m : String)
  | panicked (m : String)
  deriving DecidableEq, Repr

/-- Oracle for `TestVectors`: the build mode flag, the standard-library
parsers, the hash, and the two verification entry points under test. -/
structure VecOracle where
  boringEnabled : Bool
  hexDecode : List Char → Option Bytes
  parseHex : List Char → Option Int
  hashFn : HashId → Bytes → Bytes
  verifyFn : CurveId → Option Int → Option Int → Bytes → Option Int →
    Option Int → Bool
  hashVerifyFn : CurveId → Option Int → Option Int → Bytes → Option Int →
    Option Int → HashId → Bool

def msgPre : List Char := ['M', 's', 'g', ' ', '=', ' ']

def qxPre : List Char := ['Q', 'x', ' ', '=', ' ']

def qyPre : List Char := ['Q', 'y', ' ', '=', ' ']

def rPre : List Char := ['R', ' ', '=', ' ']

def sPre : List Char := ['S', ' ', '=', ' ']

def resultPre : List Char := ['R', 'e', 's', 'u', 'l', 't', ' ', '=', ' ']

/-- `strings.HasPrefix`: does the second list start with the first? -/
def hasPre : List Char → List Char → Bool
  | [], _ => true
  | _ :: _, [] => false
  | p :: ps, c :: cs => p == c && hasPre ps cs

/-- `strings.SplitN(line, ",", 2)`: split at the first comma; `none` when
there is no comma (in which case the Go code would index past the end of
the one-element slice). -/
def splitFirstComma : List Char → Option (List Char × List Char)
  | [] => none
  | c :: cs =>
    if c = ',' then some ([], cs)
    else
      match splitFirstComma cs with
      | none => none
      | some (a, b) => some (c :: a, b)

/-- The curve selected by a section header part (`pub.Curve` after the
first switch); `none` is a nil curve (default branch). -/
def curveOfPart (p : List Char) : Option CurveId :=
  if p = ['P', '-', '2', '2', '4'] then some .P224
  else if p = ['P', '-', '2', '5', '6'] then some .P256
  else if p = ['P', '-', '3', '8', '4'] then some .P384
  else if p = ['P', '-', '5', '2', '1'] then some .P521
  else none

/-- The hash selected by a section header part (`h`/`ch` after the second
switch); `none` is a nil hash (default branch). -/
def hashOfPart (p : List Char) : Option HashId :=
  if p = ['S', 'H', 'A', '-', '1'] then some .SHA1
  else if p = ['S', 'H', 'A', '-', '2', '2', '4'] then some .SHA224
  else if p = ['S', 'H', 'A', '-', '2', '5', '6'] then some .SHA256
  else if p = ['S', 'H', 'A', '-', '3', '8', '4'] then some .SHA384
  else if p = ['S', 'H', 'A', '-', '5', '1', '2'] then some .SHA512
  else none

/-- One iteration of the `TestVectors` line loop (test file lines
378-458) on the lone line `line` (already stripped of its `\r\n`).
Comment and blank lines are skipped; a `[Curve,Hash]` header updates the
curve and hash (with the boring-mode P-224 `continue` leaving both
untouched); data lines are skipped until both curve and hash are set;
otherwise the line is dispatched on its `Name = ` prefix, and a
`Result = ` line compares the verification verdict with the expectation
derived from the character at index 9 and aborts the run on
disagreement. -/
def processLine (o : VecOracle) (lineNo : Nat) (st : VecState)
    (line : List Char) : VecStep :=
  match line with
  | [] => .next st
  | c0 :: restLine =>
    if c0 = '#' then .next st
    else if c0 = '[' then
      match splitFirstComma restLine.dropLast with
      | none => .panicked "index out of range"
      | some (part0, part1) =>
        if part0 = ['P', '-', '2', '2', '4'] && o.boringEnabled then .next st
        else
          .next { st with curve := curveOfPart part0, hashAlg := hashOfPart part1 }
    else
      match st.hashAlg, st.curve with
      | some ha, some cu =>
        if hasPre msgPre line then
          match o.hexDecode (line.drop 6) with
          | none =>
            .fatal ("failed to decode message on line " ++ toString lineNo)
          | some m => .next { st with msg := m }
        else if hasPre qxPre line then
          match o.parseHex (line.drop 5) with
          | none => .panicked "bad hex"
          | some v => .next { st with qx := some v }
        else if hasPre qyPre line then
          match o.parseHex (line.drop 5) with
          | none => .panicked "bad hex"
          | some v => .next { st with qy := some v }
        else if hasPre rPre line then
          match o.parseHex (line.drop 4) with
          | none => .panicked "bad hex"
          | some v => .next { st with r := some v }
        else if hasPre sPre line then
          match o.parseHex (line.drop 4) with
          | none => .panicked "bad hex"
          | some v => .next { st with s := some v }
        else if hasPre resultPre line then
          match line.get? 9 with
          | none => .panicked "index out of range"
          | some c =>
            let expected := c = 'P'
            let hashed := o.hashFn ha st.msg
            if o.boringEnabled then
              if (o.hashVerifyFn cu st.qx st.qy st.msg st.r st.s ha) ≠ expected then
                .fatal ("incorrect result on line " ++ toString lineNo)
              else .next st
            else
              if (o.verifyFn cu st.qx st.qy hashed st.r st.s) ≠ expected then
                .fatal ("incorrect result on line " ++ toString lineNo)
              else .next st
        else
          .fatal ("unknown variable on line " ++ toString lineNo ++ ": " ++
            String.mk line)
      | _, _ => .next st

/-! ### Release script (`misc/boring/build.release`) -/

/-- One observable action of the release script. -/
inductive RelAct where
  | gitRevParse
  | gitLogTag
  | gitShowVersion
  | goGetReleaseTool
  | releaseBuild (target : List Char)
  | nmCheck
  | gsutilCp (file : List Char)
  | appendRELEASES (line : List Char)
  deriving DecidableEq, Repr

/-- The environment the script runs against: its arguments, the answers
of the git queries (already post-processed as in the script: the 12-char
commit, the base tag, the BoringCrypto version, each empty on failure),
the lines of the RELEASES file, the two nm scan outcomes and the two
archive checksums. -/
structure RelEnv where
  args : List (List Char)
  commit12 : List Char
  baseTag : List Char
  boringVer : List Char
  releases : List (List Char)
  nmHasBoringSig : Bool
  nmHasSha256Digest : Bool
  shaLinux : List Char
  shaSrc : List Char
  deriving DecidableEq, Repr

/-- Final state of the script: an `exit` with a code, or a finished
publish with the new RELEASES contents. -/
inductive RelOutcome where
  | exited (code : Nat)
  | published (releases : List (List Char))
  deriving DecidableEq, Repr

/-- Anchored match of a grep basic-regex pattern against the start of a
line; of the BRE special characters only `.` (match any character) can
occur in a version string, so it is the only one modelled. -/
def dotMatchPre : List Char → List Char → Bool
  | [], _ => true
  | _ :: _, [] => false
  | p :: ps, c :: cs => (p == '.' || p == c) && dotMatchPre ps cs

/-- Build / publish actions of the script: fetching the release tool,
building the two archives, and the gsutil uploads and RELEASES appends. -/
def isBuildOrPublish : RelAct → Bool
  | .goGetReleaseTool => true
  | .releaseBuild _ => true
  | .gsutilCp _ => true
  | .appendRELEASES _ => true
  | _ => false

def tarLinuxSuffix : List Char := ('.' :: "linux-amd64.tar.gz".toList)

def tarSrcSuffix : List Char := ('.' :: "src.tar.gz".toList)

/-- `build.release`: argument check, the three git queries with their
empty-result exits, the RELEASES redefinition guard
(`grep "^$version " RELEASES` → exit 2), the build of the two archives,
the two nm sanity checks, and the publish (gsutil uploads plus the two
RELEASES append lines).  The implicit aborts of `set -e` inside the
build stage are not modelled; they cannot occur before the guard. -/
def buildRelease (e : RelEnv) : RelOutcome × List RelAct :=
  if 2 ≤ e.args.length then (.exited 2, [])
  else if e.commit12 = [] then (.exited 2, [.gitRevParse])
  else if e.baseTag = [] then (.exited 2, [.gitRevParse, .gitLogTag])
  else if e.boringVer = [] then
    (.exited 2, [.gitRevParse, .gitLogTag, .gitShowVersion])
  else
    let version := e.baseTag ++ 'b' :: e.boringVer
    let pre : List RelAct := [.gitRevParse, .gitLogTag, .gitShowVersion]
    if e.releases.any (fun l => dotMatchPre (version ++ [' ']) l) then
      (.exited 2, pre)
    else
      let output := version ++ tarLinuxSuffix
      let outputsrc := version ++ tarSrcSuffix
      let tr := pre ++ [.goGetReleaseTool,
        .releaseBuild "linux-amd64".toList, .releaseBuild "src".toList,
        .nmCheck]
      if e.nmHasBoringSig = false then (.exited 2, tr)
      else if e.nmHasSha256Digest then (.exited 2, tr)
      else
        let url := "https://go-boringcrypto.storage.googleapis.com/".toList
        let line1 := version ++ ' ' :: e.commit12 ++
          " linux-amd64 ".toList ++ url ++ output ++ ' ' :: e.shaLinux
        let line2 := version ++ ' ' :: e.commit12 ++
          " src ".toList ++ url ++ outputsrc ++ ' ' :: e.shaSrc
        (.published (e.releases ++ [line1, line2]),
          tr ++ [.gsutilCp output, .gsutilCp outputsrc,
            .appendRELEASES line1, .appendRELEASES line2])

/-! ### Concrete oracles used by the witnesses -/

/-- A sign/verify oracle whose digest lookup fails for every hash. -/
def oNoMD : SignOracle :=
  ⟨fun _ => none, 2, fun _ => 0, fun _ _ _ => none, fun _ _ _ _ => false,
    fun _ _ => none, fun _ _ => none, fun _ _ _ => false, fun _ _ _ => false,
    false⟩

/-- A sign/verify oracle where every foreign call succeeds and the RSA
key size is 2 bytes. -/
def oGood : SignOracle :=
  ⟨fun _ => some 0, 2, fun _ => 0, fun _ _ _ => some [9, 9],
    fun _ _ _ _ => true, fun _ _ => some [9, 9], fun _ _ => some [9, 9],
    fun _ _ _ => true, fun _ _ _ => true, false⟩

/-- The foreign `RSA_generate_key_fips` call. -/
def isGenKeyCall : CCall → Bool
  | .rsaGenerateKeyFips _ => true
  | _ => false

/-- A setup oracle that fails at `EVP_PKEY_set1_RSA`, after the
`EVP_PKEY` has already been allocated. -/
def oSetupFail : SetupOracle :=
  ⟨true, false, true, true, true, some 0, true, true, true, true,
    fun _ => some 0, true⟩

/-- A `cryptRSA` oracle where every foreign call succeeds. -/
def coGood : CryptOracle :=
  ⟨⟨true, true, true, true, true, some 0, true, true, true, true,
    fun _ => some 0, true⟩, some 2, fun _ => some [5, 6]⟩

/-- The C4 claim as stated: every RSA sign, verify, encrypt and decrypt
operation passes its message and signature bytes to the foreign library
unmodified, performing no padding transformation of its own on any
input. -/
def passesBytesUnmodified : Prop :=
  (∀ (co : CryptOracle) (padding : Padding) (label : Bytes) (saltLen : Int)
      (ch : Nat) (inB : Bytes),
    ∀ b ∈ msgArgs (cryptRSA co padding label saltLen ch inB).2, b = inB) ∧
  (∀ (o : SignOracle) (h : Nat) (hashed : Bytes) (saltLen : Int),
    ∀ b ∈ msgArgs (SignRSAPSS o h hashed saltLen).2, b = hashed) ∧
  (∀ (o : SignOracle) (h : Nat) (hashed sig : Bytes) (saltLen : Int),
    (∀ b ∈ msgArgs (VerifyRSAPSS o h hashed sig saltLen).2, b = hashed) ∧
    (∀ b ∈ sigArgs (VerifyRSAPSS o h hashed sig saltLen).2, b = sig)) ∧
  (∀ (o : SignOracle) (h : Nat) (msg : Bytes) (mih : Bool),
    ∀ b ∈ msgArgs (SignRSAPKCS1v15 o h msg mih).2, b = msg) ∧
  (∀ (o : SignOracle) (h : Nat) (msg sig : Bytes) (mih : Bool),
    (∀ b ∈ msgArgs (VerifyRSAPKCS1v15 o h msg sig mih).2, b = msg) ∧
    (∀ b ∈ sigArgs (VerifyRSAPKCS1v15 o h msg sig mih).2, b = sig))

/-- The C8 claim as stated: a caller-supplied salt length of 0 is never
passed to the foreign library — a zero salt length becomes `-1` in the
PSS sign path and `-2` in the PSS verify path, and any non-zero salt
length is passed through unchanged, with no restriction on its
magnitude. -/
def pssSaltPassthrough : Prop :=
  ∀ (o : SignOracle) (h : Nat) (hashed sig : Bytes) (saltLen : Int),
    (o.cryptoHashToMD h ≠ none → saltLen = 0 →
      pssSaltArgs (SignRSAPSS o h hashed saltLen).2 = [-1] ∧
      pssSaltArgs (VerifyRSAPSS o h hashed sig saltLen).2 = [-2]) ∧
    (saltLen ≠ 0 →
      (∀ s ∈ pssSaltArgs (SignRSAPSS o h hashed saltLen).2, s = saltLen) ∧
      (∀ s ∈ pssSaltArgs (VerifyRSAPSS o h hashed sig saltLen).2,
        s = saltLen)) ∧
    (∀ s ∈ pssSaltArgs (SignRSAPSS o h hashed saltLen).2, s ≠ 0) ∧
    (∀ s ∈ pssSaltArgs (VerifyRSAPSS o h hashed sig saltLen).2, s ≠ 0)

/-- A test-vector oracle in boring mode whose `HashVerify` always
accepts. -/
def oVec : VecOracle :=
  ⟨true, fun _ => some [], fun _ => some 0, fun _ _ => [],
    fun _ _ _ _ _ _ => false, fun _ _ _ _ _ _ _ => true⟩

/-- A fully populated test-vector loop state. -/
def stVec : VecState :=
  ⟨some .P256, some .SHA256, [1], some 2, some 3, some 4, some 5⟩

/-- A release environment whose version is already recorded in
RELEASES. -/
def eRel : RelEnv :=
  ⟨[], "abcdefabcdef".toList, "go1.2.3".toList, ['4'],
    ["go1.2.3b4 was here".toList], true, false, [], []⟩

/-! ### Theorems -/

theorem bytesToNat_append_last (l : Bytes) (b : Nat) :
    bytesToNat (l ++ [b]) = bytesToNat l * 256 + b := by
  simp [bytesToNat, List.foldl_append]

theorem bytesToNat_natToBytes (x : Nat) : bytesToNat (natToBytes x) = x := by
  induction x using Nat.strong_induction_on with
  | _ n ih =>
    match n with
    | 0 => simp [natToBytes, bytesToNat]
    | m + 1 =>
      rw [natToBytes, bytesToNat_append_last,
        ih ((m + 1) / 256) (Nat.div_lt_self (Nat.succ_pos m) (by norm_num))]
      omega

/-- C2: for every non-negative big integer `x`, marshalling across the
foreign-function boundary and back is the identity:
`bnToBig (bigToBN x) = x`, the foreign big-number object being modelled by
the minimal big-endian byte representation of `x`. -/
theorem C2_bn_roundtrip (x : Int) (hx : 0 ≤ x) : bnToBig (bigToBN x) = x := by
  simp only [bigToBN, bnToBig, bytesToNat_natToBytes]
  exact Int.natAbs_of_nonneg hx

/-- Witness for C2 at the concrete input 258. -/
theorem C2_bn_roundtrip_witness :
    0 ≤ (258 : Int) ∧ bnToBig (bigToBN 258) = 258 :=
  ⟨by norm_num, C2_bn_roundtrip 258 (by norm_num)⟩

theorem setupRSA_out (o : SetupOracle) (padding : Padding) (label : Bytes)
    (saltLen : Int) (ch : Nat) :
    SetupOut o padding label saltLen ch
      (setupRSA o padding label saltLen ch) := by
  by_cases h1 : o.evpPkeyNewOk = false
  · simp [setupRSA, h1]
    exact .pkeyNewFail
  by_cases h2 : o.set1RsaOk = false
  · simp [setupRSA, h1, h2]
    exact .set1Fail
  by_cases h3 : o.ctxNewOk = false
  · simp [setupRSA, h1, h2, h3]
    exact .ctxNewFail
  by_cases h4 : o.initOk = false
  · simp [setupRSA, h1, h2, h3, h4]
    exact .initFail
  by_cases h5 : o.setPaddingOk = false
  · simp [setupRSA, h1, h2, h3, h4, h5]
    exact .setPaddingFail
  by_cases hp1 : padding = Padding.GO_RSA_PKCS1_OAEP_PADDING
  · rcases hmd : o.hashToMD with _ | md
    · simp [setupRSA, h1, h2, h3, h4, h5, hp1, hmd]
      exact .oaepNoMD rfl
    · by_cases h6 : o.setOaepMdOk = false
      · simp [setupRSA, h1, h2, h3, h4, h5, hp1, hmd, h6]
        exact .oaepMdFail md rfl
      by_cases h7 : o.mallocOk = false
      · simp [setupRSA, h1, h2, h3, h4, h5, hp1, hmd, h6, h7]
        exact .oaepMallocFail md rfl
      by_cases h8 : o.setLabelOk = false
      · simp [setupRSA, h1, h2, h3, h4, h5, hp1, hmd, h6, h7, h8]
        exact .oaepLabelFail md rfl
      simp [setupRSA, h1, h2, h3, h4, h5, hp1, hmd, h6, h7, h8]
      exact .oaepOk md rfl
  by_cases hp2 : padding = Padding.GO_RSA_PKCS1_PSS_PADDING
  · by_cases hsf : saltLen ≠ 0 ∧ o.setSaltlenOk = false
    · simp [setupRSA, h1, h2, h3, h4, h5, hp1, hp2, hsf]
      exact .pssSaltFail rfl
    by_cases hs0 : saltLen = 0
    · rcases hcmd : o.cryptoHashToMD ch with _ | cmd
      · simp [setupRSA, h1, h2, h3, h4, h5, hp1, hp2, hsf, hs0, hcmd]
        exact .pssNoMD0 rfl
      by_cases h10 : o.setMgf1Ok = false
      · simp [setupRSA, h1, h2, h3, h4, h5, hp1, hp2, hsf, hs0, hcmd, h10]
        exact .pssMgf1Fail0 cmd rfl
      simp [setupRSA, h1, h2, h3, h4, h5, hp1, hp2, hsf, hs0, hcmd, h10]
      exact .pssOk0 cmd rfl
    have h9 : ¬ (o.setSaltlenOk = false) := fun hc => hsf ⟨hs0, hc⟩
    rcases hcmd : o.cryptoHashToMD ch with _ | cmd
    · simp [setupRSA, h1, h2, h3, h4, h5, hp1, hp2, hsf, hs0, h9, hcmd]
      exact .pssNoMD1 rfl
    by_cases h10 : o.setMgf1Ok = false
    · simp [setupRSA, h1, h2, h3, h4, h5, hp1, hp2, hsf, hs0, h9, hcmd, h10]
      exact .pssMgf1Fail1 cmd rfl
    simp [setupRSA, h1, h2, h3, h4, h5, hp1, hp2, hsf, hs0, h9, hcmd, h10]
    exact .pssOk1 cmd rfl
  simp [setupRSA, h1, h2, h3, h4, h5, hp1, hp2]
  exact .plainOk hp1 hp2



theorem msgArgs_append (l1 l2 : List CCall) :
    msgArgs (l1 ++ l2) = msgArgs l1 ++ msgArgs l2 := by
  induction l1 with
  | nil => simp [msgArgs]
  | cons c r ih => cases c <;> simp [msgArgs, ih]

theorem sigArgs_append (l1 l2 : List CCall) :
    sigArgs (l1 ++ l2) = sigArgs l1 ++ sigArgs l2 := by
  induction l1 with
  | nil => simp [sigArgs]
  | cons c r ih => cases c <;> simp [sigArgs, ih]

theorem paddingArgs_append (l1 l2 : List CCall) :
    paddingArgs (l1 ++ l2) = paddingArgs l1 ++ paddingArgs l2 := by
  induction l1 with
  | nil => simp [paddingArgs]
  | cons c r ih => cases c <;> simp [paddingArgs, ih]

theorem setupRSA_msgArgs_nil (o : SetupOracle) (padding : Padding)
    (label : Bytes) (saltLen : Int) (ch : Nat) :
    msgArgs (setupRSA o padding label saltLen ch).2 = [] := by
  have h := setupRSA_out o padding label saltLen ch
  rcases hout : setupRSA o padding label saltLen ch with pair
  rw [hout] at h
  cases h <;> simp_all [msgArgs]

theorem setupRSA_paddingArgs (o : SetupOracle) (padding : Padding)
    (label : Bytes) (saltLen : Int) (ch : Nat) :
    ∀ q ∈ paddingArgs (setupRSA o padding label saltLen ch).2, q = padding := by
  have h := setupRSA_out o padding label saltLen ch
  rcases hout : setupRSA o padding label saltLen ch with pair
  rw [hout] at h
  cases h <;> simp_all [paddingArgs]

theorem setupRSA_no_oaep (o : SetupOracle) (padding : Padding)
    (label : Bytes) (saltLen : Int) (ch : Nat)
    (hp : padding ≠ Padding.GO_RSA_PKCS1_OAEP_PADDING) :
    (setupRSA o padding label saltLen ch).2.any isOaepSetupCall = false := by
  have h := setupRSA_out o padding label saltLen ch
  rcases hout : setupRSA o padding label saltLen ch with pair
  rw [hout] at h
  cases h <;> simp_all [isOaepSetupCall]

theorem setupRSA_oaep_events (o : SetupOracle) (label : Bytes)
    (saltLen : Int) (ch : Nat)
    (hok : (setupRSA o Padding.GO_RSA_PKCS1_OAEP_PADDING label saltLen ch).1.err
      = none) :
    (∃ md, CCall.setRsaOaepMd md ∈
      (setupRSA o Padding.GO_RSA_PKCS1_OAEP_PADDING label saltLen ch).2) ∧
    CCall.set0RsaOaepLabel label ∈
      (setupRSA o Padding.GO_RSA_PKCS1_OAEP_PADDING label saltLen ch).2 := by
  revert hok
  have h := setupRSA_out o Padding.GO_RSA_PKCS1_OAEP_PADDING label saltLen ch
  rcases hout : setupRSA o Padding.GO_RSA_PKCS1_OAEP_PADDING label saltLen ch
    with pair
  rw [hout] at h
  cases h <;> intro hok <;> simp_all

theorem cryptRSA_msgArgs (co : CryptOracle) (padding : Padding)
    (label : Bytes) (saltLen : Int) (ch : Nat) (inB : Bytes) :
    ∀ b ∈ msgArgs (cryptRSA co padding label saltLen ch inB).2, b = inB := by
  have hm := setupRSA_msgArgs_nil co.setup padding label saltLen ch
  rcases hs : setupRSA co.setup padding label saltLen ch with ⟨res, tr⟩
  rw [hs] at hm
  simp only at hm
  simp only [cryptRSA, hs]
  rcases res.err with _ | e
  · rcases co.crypt1 with _ | n1
    · simp [msgArgs_append, hm, msgArgs]
    · rcases co.crypt2 inB with _ | bs <;> simp [msgArgs_append, hm, msgArgs]
  · simp [hm]

theorem cryptRSA_paddingArgs (co : CryptOracle) (padding : Padding)
    (label : Bytes) (saltLen : Int) (ch : Nat) (inB : Bytes) :
    ∀ q ∈ paddingArgs (cryptRSA co padding label saltLen ch inB).2,
      q = padding := by
  have hp := setupRSA_paddingArgs co.setup padding label saltLen ch
  rcases hs : setupRSA co.setup padding label saltLen ch with ⟨res, tr⟩
  rw [hs] at hp
  simp only at hp
  simp only [cryptRSA, hs]
  rcases res.err with _ | e
  · rcases co.crypt1 with _ | n1
    · simpa [paddingArgs_append, paddingArgs] using hp
    · rcases co.crypt2 inB with _ | bs <;>
        simpa [paddingArgs_append, paddingArgs] using hp
  · simpa using hp

theorem cryptRSA_no_oaep (co : CryptOracle) (padding : Padding)
    (label : Bytes) (saltLen : Int) (ch : Nat) (inB : Bytes)
    (hpne : padding ≠ Padding.GO_RSA_PKCS1_OAEP_PADDING) :
    (cryptRSA co padding label saltLen ch inB).2.any isOaepSetupCall
      = false := by
  have hn := setupRSA_no_oaep co.setup padding label saltLen ch hpne
  rcases hs : setupRSA co.setup padding label saltLen ch with ⟨res, tr⟩
  rw [hs] at hn
  simp only at hn
  simp only [cryptRSA, hs]
  rcases res.err with _ | e
  · rcases co.crypt1 with _ | n1
    · simp_all [List.any_append, isOaepSetupCall]
    · rcases co.crypt2 inB with _ | bs <;>
        simp_all [List.any_append, isOaepSetupCall]
  · simp_all

theorem cryptRSA_oaep_events (co : CryptOracle) (label : Bytes)
    (saltLen : Int) (ch : Nat) (inB : Bytes)
    (hok : (cryptRSA co Padding.GO_RSA_PKCS1_OAEP_PADDING label saltLen ch
      inB).1.2 = none) :
    (∃ md, CCall.setRsaOaepMd md ∈
      (cryptRSA co Padding.GO_RSA_PKCS1_OAEP_PADDING label saltLen ch inB).2) ∧
    CCall.set0RsaOaepLabel label ∈
      (cryptRSA co Padding.GO_RSA_PKCS1_OAEP_PADDING label saltLen ch
        inB).2 := by
  revert hok
  have he := setupRSA_oaep_events co.setup label saltLen ch
  rcases hs : setupRSA co.setup Padding.GO_RSA_PKCS1_OAEP_PADDING label
    saltLen ch with ⟨res, tr⟩
  rw [hs] at he
  simp only at he
  simp only [cryptRSA, hs]
  rcases hre : res.err with _ | e
  · rcases co.crypt1 with _ | n1
    · simp_all
    · rcases co.crypt2 inB with _ | bs <;> simp_all
  · simp_all

/-- C1: whenever `cryptoHashToMD` yields no digest for the requested
hash, each of the four operations returns the unsupported-hash error (a
nil signature for the signing functions) and its foreign-call trace
contains no signing or verification routine. -/
theorem C1_unsupported_hash (o : SignOracle) (h : Nat) (hashed msg sig : Bytes)
    (saltLen : Int) (mih : Bool) (hmd : o.cryptoHashToMD h = none) :
    ((SignRSAPSS o h hashed saltLen).1 =
        .err "crypto/rsa: unsupported hash function" ∧
      ∀ c ∈ (SignRSAPSS o h hashed saltLen).2, isSignVerifyCall c = false) ∧
    ((VerifyRSAPSS o h hashed sig saltLen).1 =
        .err "crypto/rsa: unsupported hash function" ∧
      ∀ c ∈ (VerifyRSAPSS o h hashed sig saltLen).2,
        isSignVerifyCall c = false) ∧
    ((SignRSAPKCS1v15 o h msg mih).1 =
        .err ("crypto/rsa: unsupported hash function: " ++ toString h) ∧
      ∀ c ∈ (SignRSAPKCS1v15 o h msg mih).2, isSignVerifyCall c = false) ∧
    ((VerifyRSAPKCS1v15 o h msg sig mih).1 =
        .err "crypto/rsa: unsupported hash function" ∧
      ∀ c ∈ (VerifyRSAPKCS1v15 o h msg sig mih).2,
        isSignVerifyCall c = false) := by
  simp [SignRSAPSS, VerifyRSAPSS, SignRSAPKCS1v15, VerifyRSAPKCS1v15, hmd,
    isSignVerifyCall]

/-- Witness for C1 at a concrete oracle whose digest map is empty. -/
theorem C1_unsupported_hash_witness :
    oNoMD.cryptoHashToMD 3 = none ∧
    (SignRSAPSS oNoMD 3 [1] 0).1 =
      .err "crypto/rsa: unsupported hash function" :=
  ⟨rfl, (C1_unsupported_hash oNoMD 3 [1] [2] [3] 0 false rfl).1.1⟩

/-- `cint` is the identity on values representable in a C `int`. -/
theorem cint_eq_self (n : Int) (h1 : -(2 ^ 31) ≤ n) (h2 : n < 2 ^ 31) :
    cint n = n := by
  unfold cint
  omega

/-- C8 counterexample: the claim fails as stated at the non-zero salt
length `2 ^ 32`: the cgo cast `C.int` truncates it to 32 bits, so the
foreign PSS signing routine receives salt length `0` even though the
caller supplied a non-zero value. -/
theorem C8_counterexample : ¬ pssSaltPassthrough := by
  intro hcl
  exact (hcl oGood 3 [1] [2] (2 ^ 32)).2.2.1 0 (by decide) rfl

/-- C8 (amended): for a caller-supplied salt length representable in a
C `int`, the PSS sign path passes `-1` instead of `0` and the PSS
verify path passes `-2` instead of `0` to the foreign routine, any
non-zero representable value is passed through unchanged, and in
particular the foreign library never receives a salt length of `0`;
values outside the C `int` range are truncated by the cgo cast and may
reach the library as `0`. -/
theorem C8_pss_saltlen (o : SignOracle) (h : Nat) (hashed sig : Bytes)
    (saltLen : Int) (h1 : -(2 ^ 31) ≤ saltLen) (h2 : saltLen < 2 ^ 31) :
    (o.cryptoHashToMD h ≠ none →
      pssSaltArgs (SignRSAPSS o h hashed saltLen).2 =
        [if saltLen = 0 then -1 else saltLen]) ∧
    (o.cryptoHashToMD h ≠ none →
      pssSaltArgs (VerifyRSAPSS o h hashed sig saltLen).2 =
        [if saltLen = 0 then -2 else saltLen]) ∧
    (∀ s ∈ pssSaltArgs (SignRSAPSS o h hashed saltLen).2, s ≠ 0) ∧
    (∀ s ∈ pssSaltArgs (VerifyRSAPSS o h hashed sig saltLen).2, s ≠ 0) := by
  have hc1 : cint (if saltLen = 0 then -1 else saltLen) =
      if saltLen = 0 then -1 else saltLen := by
    by_cases h0 : saltLen = 0 <;> simp only [h0, if_true, if_false] <;>
      unfold cint <;> omega
  have hc2 : cint (if saltLen = 0 then -2 else saltLen) =
      if saltLen = 0 then -2 else saltLen := by
    by_cases h0 : saltLen = 0 <;> simp only [h0, if_true, if_false] <;>
      unfold cint <;> omega
  rcases hmd : o.cryptoHashToMD h with _ | md
  · simp [SignRSAPSS, VerifyRSAPSS, hmd, pssSaltArgs]
  · have hsign : pssSaltArgs (SignRSAPSS o h hashed saltLen).2 =
        [if saltLen = 0 then -1 else saltLen] := by
      simp only [SignRSAPSS, hmd, hc1]
      rcases o.signPssFn md hashed (if saltLen = 0 then -1 else saltLen) with
        _ | out <;> simp [pssSaltArgs]
    have hver : pssSaltArgs (VerifyRSAPSS o h hashed sig saltLen).2 =
        [if saltLen = 0 then -2 else saltLen] := by
      simp only [VerifyRSAPSS, hmd, hc2]
      rcases o.verifyPssFn md hashed (if saltLen = 0 then -2 else saltLen) sig with
        _ | b <;> simp [pssSaltArgs]
    refine ⟨fun _ => hsign, fun _ => hver, ?_, ?_⟩
    · intro s hsmem
      rw [hsign] at hsmem
      simp only [List.mem_singleton] at hsmem
      subst hsmem
      by_cases h0 : saltLen = 0
      · simp [h0]
      · simp [h0, h0]
    · intro s hsmem
      rw [hver] at hsmem
      simp only [List.mem_singleton] at hsmem
      subst hsmem
      by_cases h0 : saltLen = 0
      · simp [h0]
      · simp [h0, h0]

/-- Witness for C8 at the concrete salt length 0. -/
theorem C8_pss_saltlen_witness :
    oGood.cryptoHashToMD 3 ≠ none ∧
    pssSaltArgs (SignRSAPSS oGood 3 [1] 0).2 = [-1] ∧
    pssSaltArgs (VerifyRSAPSS oGood 3 [1] [2] 0).2 = [-2] :=
  ⟨by simp [oGood],
    (C8_pss_saltlen oGood 3 [1] [2] 0 (by norm_num) (by norm_num)).1
      (by simp [oGood]),
    (C8_pss_saltlen oGood 3 [1] [2] 0 (by norm_num) (by norm_num)).2.1
      (by simp [oGood])⟩

/-- C9: a signature shorter than the RSA key size makes
`VerifyRSAPKCS1v15` behave exactly as on the key-size-length signature
obtained by prepending zero bytes, and a signature of at least the key
size reaches the foreign library unchanged. -/
theorem C9_sig_zero_pad (o : SignOracle) (h : Nat) (msg sig : Bytes)
    (mih : Bool) :
    (sig.length < o.rsaSize →
      VerifyRSAPKCS1v15 o h msg sig mih =
        VerifyRSAPKCS1v15 o h msg
          (List.replicate (o.rsaSize - sig.length) 0 ++ sig) mih) ∧
    (o.rsaSize ≤ sig.length →
      ∀ b ∈ sigArgs (VerifyRSAPKCS1v15 o h msg sig mih).2, b = sig) := by
  constructor
  · intro hlt
    have hlen : (List.replicate (o.rsaSize - sig.length) 0 ++ sig).length =
        o.rsaSize := by
      simp only [List.length_append, List.length_replicate]
      omega
    have hnlt : ¬ ((List.replicate (o.rsaSize - sig.length) 0 ++ sig).length <
        o.rsaSize) := by
      rw [hlen]
      exact lt_irrefl _
    simp only [VerifyRSAPKCS1v15, if_pos hlt, if_neg hnlt]
  · intro hge
    have hnlt : ¬ (sig.length < o.rsaSize) := Nat.not_lt.mpr hge
    simp only [VerifyRSAPKCS1v15, if_neg hnlt]
    rcases o.cryptoHashToMD h with _ | md
    · simp [sigArgs]
    · cases mih
      · rcases hb : o.evpRsaVerifyFn md msg sig <;> simp [hb, sigArgs]
      · cases o.strictFIPS
        · rcases hb : o.rsaVerifyFn (o.mdType md) msg sig <;>
            simp [hb, sigArgs]
        · simp [sigArgs]

/-- Witness for C9: a 1-byte signature against a 2-byte key behaves like
its zero-padded form, and a 2-byte signature passes through unchanged. -/
theorem C9_sig_zero_pad_witness :
    VerifyRSAPKCS1v15 oGood 5 [7] [1] false =
      VerifyRSAPKCS1v15 oGood 5 [7] [0, 1] false ∧
    ∀ b ∈ sigArgs (VerifyRSAPKCS1v15 oGood 5 [7] [1, 2] false).2,
      b = [1, 2] :=
  ⟨(C9_sig_zero_pad oGood 5 [7] [1] false).1 (by norm_num [oGood]),
    (C9_sig_zero_pad oGood 5 [7] [1, 2] false).2 (by norm_num [oGood])⟩

/-- C10: `GenerateKeyRSA` fails atomically: a non-nil error is returned
exactly when all eight key components are nil, and on success the eight
components are the `bnToBig` images of the components of the single
freshly generated foreign key (the generating call appears exactly once
in the trace). -/
theorem C10_generate_atomic (o : GenOracle) (bits : Int) :
    ((GenerateKeyRSA o bits).1.err ≠ none ↔
      ((GenerateKeyRSA o bits).1.N = none ∧
        (GenerateKeyRSA o bits).1.E = none ∧
        (GenerateKeyRSA o bits).1.D = none ∧
        (GenerateKeyRSA o bits).1.P = none ∧
        (GenerateKeyRSA o bits).1.Q = none ∧
        (GenerateKeyRSA o bits).1.Dp = none ∧
        (GenerateKeyRSA o bits).1.Dq = none ∧
        (GenerateKeyRSA o bits).1.Qinv = none)) ∧
    ((GenerateKeyRSA o bits).1.err = none →
      (GenerateKeyRSA o bits).1 =
        ⟨some (bnToBig o.nBN), some (bnToBig o.eBN), some (bnToBig o.dBN),
          some (bnToBig o.pBN), some (bnToBig o.qBN), some (bnToBig o.dpBN),
          some (bnToBig o.dqBN), some (bnToBig o.qinvBN), none⟩ ∧
      List.countP isGenKeyCall (GenerateKeyRSA o bits).2 = 1) := by
  rcases o with ⟨rsaNewOk, genOk, nBN, eBN, dBN, pBN, qBN, dpBN, dqBN, qinvBN⟩
  cases rsaNewOk <;> cases genOk <;>
    simp [GenerateKeyRSA, isGenKeyCall, List.countP_cons]

/-- Witness for C10: a successful generation returns the marshalled
components of the generated key. -/
theorem C10_generate_atomic_witness :
    (GenerateKeyRSA ⟨true, true, [2], [1, 0], [3], [5], [7], [1], [2], [4]⟩
        2048).1.err = none ∧
    (GenerateKeyRSA ⟨true, true, [2], [1, 0], [3], [5], [7], [1], [2], [4]⟩
        2048).1.N = some 2 ∧
    (GenerateKeyRSA ⟨true, true, [2], [1, 0], [3], [5], [7], [1], [2], [4]⟩
        2048).1.E = some 256 :=
  ⟨by decide,
    by
      rw [((C10_generate_atomic
        ⟨true, true, [2], [1, 0], [3], [5], [7], [1], [2], [4]⟩ 2048).2
        (by decide)).1]
      decide,
    by
      rw [((C10_generate_atomic
        ⟨true, true, [2], [1, 0], [3], [5], [7], [1], [2], [4]⟩ 2048).2
        (by decide)).1]
      decide⟩

/-- C3: whenever `setupRSA` returns an error, both returned foreign
handles are nil and every foreign object allocated before the failure has
been freed: the trace balances successful `EVP_PKEY_new` allocations with
`EVP_PKEY_free` calls and successful `EVP_PKEY_CTX_new` allocations with
`EVP_PKEY_CTX_free` calls. -/
theorem C3_setup_error_cleanup (o : SetupOracle) (padding : Padding)
    (label : Bytes) (saltLen : Int) (ch : Nat)
    (herr : (setupRSA o padding label saltLen ch).1.err ≠ none) :
    (setupRSA o padding label saltLen ch).1.pkey = none ∧
    (setupRSA o padding label saltLen ch).1.ctx = none ∧
    List.countP isPkeyAlloc (setupRSA o padding label saltLen ch).2 =
      List.countP isPkeyFree (setupRSA o padding label saltLen ch).2 ∧
    List.countP isCtxAlloc (setupRSA o padding label saltLen ch).2 =
      List.countP isCtxFree (setupRSA o padding label saltLen ch).2 := by
  revert herr
  rcases hout : setupRSA o padding label saltLen ch with ⟨res, tr⟩
  have h := setupRSA_out o padding label saltLen ch
  rw [hout] at h
  cases h <;> intro herr <;>
    simp_all [isPkeyAlloc, isPkeyFree, isCtxAlloc, isCtxFree,
      List.countP_cons]

/-- Witness for C3 at a concrete oracle failing after the first
allocation. -/
theorem C3_setup_error_cleanup_witness :
    (setupRSA oSetupFail .GO_RSA_PKCS1_PADDING [] 0 0).1.err ≠ none ∧
    (setupRSA oSetupFail .GO_RSA_PKCS1_PADDING [] 0 0).1.pkey = none ∧
    List.countP isPkeyAlloc (setupRSA oSetupFail .GO_RSA_PKCS1_PADDING [] 0 0).2 =
      List.countP isPkeyFree (setupRSA oSetupFail .GO_RSA_PKCS1_PADDING [] 0 0).2 :=
  ⟨by decide,
    (C3_setup_error_cleanup oSetupFail .GO_RSA_PKCS1_PADDING [] 0 0
      (by decide)).1,
    (C3_setup_error_cleanup oSetupFail .GO_RSA_PKCS1_PADDING [] 0 0
      (by decide)).2.2.1⟩

/-- C4 counterexample: the claim fails as stated, because
`VerifyRSAPKCS1v15` left-pads a short signature with zero bytes before
handing it to the foreign library.  At the concrete input `sig = [1]`
with a 2-byte key, the foreign verify call receives `[0, 1]`. -/
theorem C4_counterexample : ¬ passesBytesUnmodified := by
  intro hcl
  have h := (hcl.2.2.2.2 oGood 5 [7] [1] false).2 [0, 1] (by decide)
  exact absurd h (by decide)

/-- C4 (amended): every operation passes its message bytes to the
foreign library unmodified, and signature bytes are passed unmodified
except that `VerifyRSAPKCS1v15` left-pads a signature shorter than the
RSA key size with zero bytes up to the key size. -/
theorem C4_bytes_unmodified_amended :
    (∀ (co : CryptOracle) (padding : Padding) (label : Bytes) (saltLen : Int)
        (ch : Nat) (inB : Bytes),
      ∀ b ∈ msgArgs (cryptRSA co padding label saltLen ch inB).2, b = inB) ∧
    (∀ (o : SignOracle) (h : Nat) (hashed : Bytes) (saltLen : Int),
      ∀ b ∈ msgArgs (SignRSAPSS o h hashed saltLen).2, b = hashed) ∧
    (∀ (o : SignOracle) (h : Nat) (hashed sig : Bytes) (saltLen : Int),
      (∀ b ∈ msgArgs (VerifyRSAPSS o h hashed sig saltLen).2, b = hashed) ∧
      (∀ b ∈ sigArgs (VerifyRSAPSS o h hashed sig saltLen).2, b = sig)) ∧
    (∀ (o : SignOracle) (h : Nat) (msg : Bytes) (mih : Bool),
      ∀ b ∈ msgArgs (SignRSAPKCS1v15 o h msg mih).2, b = msg) ∧
    (∀ (o : SignOracle) (h : Nat) (msg sig : Bytes) (mih : Bool),
      (∀ b ∈ msgArgs (VerifyRSAPKCS1v15 o h msg sig mih).2, b = msg) ∧
      (∀ b ∈ sigArgs (VerifyRSAPKCS1v15 o h msg sig mih).2,
        b = if sig.length < o.rsaSize then
          List.replicate (o.rsaSize - sig.length) 0 ++ sig else sig)) := by
  refine ⟨cryptRSA_msgArgs, ?_, ?_, ?_, ?_⟩
  · intro o h hashed saltLen
    rcases hmd : o.cryptoHashToMD h with _ | md
    · simp [SignRSAPSS, hmd, msgArgs]
    · simp only [SignRSAPSS, hmd]
      rcases o.signPssFn md hashed (cint (if saltLen = 0 then -1 else saltLen))
        with _ | out <;> simp [msgArgs]
  · intro o h hashed sig saltLen
    rcases hmd : o.cryptoHashToMD h with _ | md
    · simp [VerifyRSAPSS, hmd, msgArgs, sigArgs]
    · simp only [VerifyRSAPSS, hmd]
      rcases hb : o.verifyPssFn md hashed
          (cint (if saltLen = 0 then -2 else saltLen)) sig <;>
        simp [hb, msgArgs, sigArgs]
  · intro o h msg mih
    rcases hmd : o.cryptoHashToMD h with _ | md
    · simp [SignRSAPKCS1v15, hmd, msgArgs]
    · simp only [SignRSAPKCS1v15, hmd]
      cases mih
      · rcases o.evpRsaSignFn md msg with _ | out <;> simp [msgArgs]
      · cases o.strictFIPS
        · rcases o.rsaSignFn (o.mdType md) msg with _ | out <;>
            simp [msgArgs]
        · simp [msgArgs]
  · intro o h msg sig mih
    simp only [VerifyRSAPKCS1v15]
    rcases hmd : o.cryptoHashToMD h with _ | md
    · simp [msgArgs, sigArgs]
    · cases mih
      · rcases hb : o.evpRsaVerifyFn md msg
            (if sig.length < o.rsaSize then
              List.replicate (o.rsaSize - sig.length) 0 ++ sig else sig) <;>
          simp [hb, msgArgs, sigArgs]
      · cases o.strictFIPS
        · rcases hb : o.rsaVerifyFn (o.mdType md) msg
              (if sig.length < o.rsaSize then
                List.replicate (o.rsaSize - sig.length) 0 ++ sig else sig) <;>
            simp [hb, msgArgs, sigArgs]
        · simp [msgArgs, sigArgs]

/-- Witness for C4 (amended) at a concrete short signature: the foreign
verify call receives the zero-padded signature. -/
theorem C4_bytes_unmodified_amended_witness :
    [0, 1] ∈ sigArgs (VerifyRSAPKCS1v15 oGood 5 [7] [1] false).2 ∧
    ([0, 1] : Bytes) =
      List.replicate (oGood.rsaSize - ([1] : Bytes).length) 0 ++ [1] :=
  ⟨by decide,
    by
      have h := (C4_bytes_unmodified_amended.2.2.2.2 oGood 5 [7] [1] false).2
        [0, 1] (by decide)
      simpa using h⟩

/-- C6: each exported RSA encryption/decryption operation configures the
foreign context with the padding flag matching its name, and the
OAEP-specific setup (digest and label copy) happens exactly for the OAEP
operations: on success the OAEP operations set the OAEP digest and hand
over the label, and the PKCS1 and no-padding operations never perform
any OAEP-specific call. -/
theorem C6_padding_flags (co : CryptOracle) (msg label : Bytes) :
    ((∀ q ∈ paddingArgs (EncryptRSAOAEP co msg label).2,
        q = .GO_RSA_PKCS1_OAEP_PADDING) ∧
      ((EncryptRSAOAEP co msg label).1.2 = none →
        (∃ md, CCall.setRsaOaepMd md ∈ (EncryptRSAOAEP co msg label).2) ∧
        CCall.set0RsaOaepLabel label ∈ (EncryptRSAOAEP co msg label).2)) ∧
    ((∀ q ∈ paddingArgs (DecryptRSAOAEP co msg label).2,
        q = .GO_RSA_PKCS1_OAEP_PADDING) ∧
      ((DecryptRSAOAEP co msg label).1.2 = none →
        (∃ md, CCall.setRsaOaepMd md ∈ (DecryptRSAOAEP co msg label).2) ∧
        CCall.set0RsaOaepLabel label ∈ (DecryptRSAOAEP co msg label).2)) ∧
    ((∀ q ∈ paddingArgs (EncryptRSAPKCS1 co msg).2,
        q = .GO_RSA_PKCS1_PADDING) ∧
      (EncryptRSAPKCS1 co msg).2.any isOaepSetupCall = false) ∧
    ((∀ q ∈ paddingArgs (DecryptRSAPKCS1 co msg).2,
        q = .GO_RSA_PKCS1_PADDING) ∧
      (DecryptRSAPKCS1 co msg).2.any isOaepSetupCall = false) ∧
    ((∀ q ∈ paddingArgs (EncryptRSANoPadding co msg).2,
        q = .GO_RSA_NO_PADDING) ∧
      (EncryptRSANoPadding co msg).2.any isOaepSetupCall = false) ∧
    ((∀ q ∈ paddingArgs (DecryptRSANoPadding co msg).2,
        q = .GO_RSA_NO_PADDING) ∧
      (DecryptRSANoPadding co msg).2.any isOaepSetupCall = false) :=
  ⟨⟨cryptRSA_paddingArgs co _ label 0 0 msg,
      fun hok => cryptRSA_oaep_events co label 0 0 msg hok⟩,
    ⟨cryptRSA_paddingArgs co _ label 0 0 msg,
      fun hok => cryptRSA_oaep_events co label 0 0 msg hok⟩,
    ⟨cryptRSA_paddingArgs co _ [] 0 0 msg,
      cryptRSA_no_oaep co _ [] 0 0 msg (by intro hc; cases hc)⟩,
    ⟨cryptRSA_paddingArgs co _ [] 0 0 msg,
      cryptRSA_no_oaep co _ [] 0 0 msg (by intro hc; cases hc)⟩,
    ⟨cryptRSA_paddingArgs co _ [] 0 0 msg,
      cryptRSA_no_oaep co _ [] 0 0 msg (by intro hc; cases hc)⟩,
    ⟨cryptRSA_paddingArgs co _ [] 0 0 msg,
      cryptRSA_no_oaep co _ [] 0 0 msg (by intro hc; cases hc)⟩⟩

/-- Witness for C6 at the all-succeeding oracle: the OAEP encryption
succeeds and its trace hands the label to the foreign library. -/
theorem C6_padding_flags_witness :
    (EncryptRSAOAEP coGood [7] [3]).1.2 = none ∧
    CCall.set0RsaOaepLabel [3] ∈ (EncryptRSAOAEP coGood [7] [3]).2 :=
  ⟨by decide, ((C6_padding_flags coGood [7] [3]).1.2 (by decide)).2⟩

/-- C5: on a `Result = ` line, the test-vector loop classifies the
record as expected-to-pass exactly when the character following
`Result = ` is `P`, and aborts the run (`t.Fatalf`) precisely when the
mode-appropriate ECDSA verification of the record state disagrees with
that expectation; otherwise it carries on with the state unchanged. -/
theorem C5_result_line (o : VecOracle) (lineNo : Nat) (st : VecState)
    (cu : CurveId) (ha : HashId) (c : Char) (rest : List Char)
    (hcu : st.curve = some cu) (hha : st.hashAlg = some ha) :
    (processLine o lineNo st (resultPre ++ c :: rest) =
        .fatal ("incorrect result on line " ++ toString lineNo) ↔
      ¬ (((if o.boringEnabled then
            o.hashVerifyFn cu st.qx st.qy st.msg st.r st.s ha
          else o.verifyFn cu st.qx st.qy (o.hashFn ha st.msg) st.r st.s)
          = true) ↔ (c = 'P'))) ∧
    (processLine o lineNo st (resultPre ++ c :: rest) = .next st ↔
      (((if o.boringEnabled then
            o.hashVerifyFn cu st.qx st.qy st.msg st.r st.s ha
          else o.verifyFn cu st.qx st.qy (o.hashFn ha st.msg) st.r st.s)
          = true) ↔ (c = 'P'))) := by
  rcases st with ⟨curve, hashAlg, msg, qx, qy, r, s⟩
  simp only at hcu hha
  subst hcu hha
  have hred : processLine o lineNo ⟨some cu, some ha, msg, qx, qy, r, s⟩
      (resultPre ++ c :: rest) =
      (if o.boringEnabled then
        (if (o.hashVerifyFn cu qx qy msg r s ha) ≠ (c = 'P') then
          VecStep.fatal ("incorrect result on line " ++ toString lineNo)
        else .next ⟨some cu, some ha, msg, qx, qy, r, s⟩)
      else
        (if (o.verifyFn cu qx qy (o.hashFn ha msg) r s) ≠ (c = 'P') then
          VecStep.fatal ("incorrect result on line " ++ toString lineNo)
        else .next ⟨some cu, some ha, msg, qx, qy, r, s⟩)) := rfl
  rw [hred]
  cases hb : o.boringEnabled
  · cases hdc : decide (c = 'P') <;>
      cases hbv : o.verifyFn cu qx qy (o.hashFn ha msg) r s <;>
      simp_all [decide_eq_true_eq]
  · cases hdc : decide (c = 'P') <;>
      cases hbv : o.hashVerifyFn cu qx qy msg r s ha <;>
      simp_all [decide_eq_true_eq]

/-- Witness for C5: a `Result = P` line with an accepting verifier lets
the loop continue. -/
theorem C5_result_line_witness :
    stVec.curve = some CurveId.P256 ∧
    processLine oVec 7 stVec (resultPre ++ 'P' :: []) = .next stVec :=
  ⟨rfl,
    (C5_result_line oVec 7 stVec .P256 .SHA256 'P' [] rfl rfl).2.mpr
      (by decide)⟩

theorem dotMatchPre_of_hasPre (p : List Char) : ∀ l : List Char,
    hasPre p l = true → dotMatchPre p l = true := by
  induction p with
  | nil => intro l _; simp [dotMatchPre]
  | cons a ps ih =>
    intro l h
    cases l with
    | nil => simp [hasPre] at h
    | cons b bs =>
      simp only [hasPre, Bool.and_eq_true] at h
      simp only [dotMatchPre, Bool.and_eq_true, Bool.or_eq_true]
      exact ⟨Or.inr h.1, ih bs h.2⟩

/-- C7: when the computed release version (base tag, `b`, BoringCrypto
version) already starts a line of the RELEASES file, the release script
exits with status 2 having performed none of the build or publish
actions. -/
theorem C7_no_rerelease (e : RelEnv)
    (hargs : e.args.length ≤ 1) (hcm : e.commit12 ≠ [])
    (hbt : e.baseTag ≠ []) (hbv : e.boringVer ≠ [])
    (hrel : ∃ l ∈ e.releases,
      hasPre ((e.baseTag ++ 'b' :: e.boringVer) ++ [' ']) l = true) :
    (buildRelease e).1 = .exited 2 ∧
    ∀ a ∈ (buildRelease e).2, isBuildOrPublish a = false := by
  have h1 : ¬ (2 ≤ e.args.length) := by omega
  obtain ⟨l, hl, hp⟩ := hrel
  have hany : (e.releases.any fun l =>
      dotMatchPre ((e.baseTag ++ 'b' :: e.boringVer) ++ [' ']) l) = true :=
    List.any_eq_true.mpr ⟨l, hl, dotMatchPre_of_hasPre _ l hp⟩
  simp only [List.append_assoc, List.cons_append] at hany
  simp [buildRelease, h1, hcm, hbt, hbv, hany, isBuildOrPublish]

/-- Witness for C7 at a concrete environment whose RELEASES already
lists the version. -/
theorem C7_no_rerelease_witness :
    (buildRelease eRel).1 = .exited 2 ∧
    ∀ a ∈ (buildRelease eRel).2, isBuildOrPublish a = false :=
  C7_no_rerelease eRel (by decide) (by decide) (by decide) (by decide)
    (by decide)

end GoFips
